import Mathlib

/-!
# AURIXA orchestration engine — shallow embedding

This file embeds the pipeline coordinator of the AURIXA orchestration
engine (`apps/orchestration-engine/src/orchestration_engine/main.py` and
`clients.py`) as executable Lean definitions, and proves or refutes the
frozen claims about it.

Modelling conventions:
* Python dict `.get` of an optional field becomes `Option`.
* A collaborator call is a value of `Except String α`: `.error msg`
  stands for a raised exception with message `msg` (the value of
  Python's `str(e)`).
* Wall-clock timestamps (`time.time()`) are `Int` values supplied
  explicitly; sleeping durations are recorded in milliseconds.
* The in-process response cache (a Python `dict` with unique keys and
  insertion order) is an association list in insertion order: updating
  an existing key keeps its position, a fresh key is appended.
-/

deriving instance DecidableEq for Except

/-! ## String helpers (Python `in`, `str.lower`, `str.strip`) -/

/-- `pat.isPrefixOf s` over raw character lists, then sliding over every
suffix: Python's substring test `pat in s`. -/
def charsContains (pat : List Char) : List Char → Bool
  | [] => pat.isEmpty
  | c :: rest => pat.isPrefixOf (c :: rest) || charsContains pat rest

/-- Python `pat in s` (substring containment). -/
def strContains (s pat : String) : Bool :=
  charsContains pat.data s.data

/-- Python `str.lower()` (ASCII case folding, which is all the source's
trigger phrases need). -/
def toLowerStr (s : String) : String :=
  ⟨s.data.map Char.toLower⟩

/-- Python `str.strip()`: drop whitespace from both ends. -/
def strTrim (s : String) : String :=
  ⟨((s.data.dropWhile Char.isWhitespace).reverse.dropWhile Char.isWhitespace).reverse⟩

/-! ## Data model (`models.py`) -/

/-- `models.PipelineRequest` — immutable pipeline input. -/
structure PipelineRequest where
  sessionId : String
  prompt : String
  tenantId : Option String := none
  userId : Option String := none
  patientId : Option Int := none
deriving DecidableEq

/-- One recorded pipeline step as it appears in the run's step list
(`step_name`, `status`, `error_message`). -/
structure StepRec where
  name : String
  status : String
  errorMessage : Option String := none
deriving DecidableEq

/-- A step recorded with `status="success"`. -/
def okStep (n : String) : StepRec := ⟨n, "success", none⟩

/-- A step recorded with `status="error"` and the exception message. -/
def errStep (n e : String) : StepRec := ⟨n, "error", some e⟩

/-! ## Response cache (`main.py` lines 18-48) -/

/-- The module-level `_response_cache : dict[str, tuple[str, float]]`,
as an association list `key ↦ (text, created_at)` in dict insertion
order. -/
abbrev Cache : Type := List (String × String × Int)

/-- Dict lookup `_response_cache.get(key)`. -/
def cacheLookup : Cache → String → Option (String × Int)
  | [], _ => none
  | e :: rest, k => if e.1 = k then some e.2 else cacheLookup rest k

/-- Dict removal `_response_cache.pop(key, None)` (keys are unique in a
Python dict, so removing the first occurrence is removal of the entry). -/
def eraseKey : Cache → String → Cache
  | [], _ => []
  | e :: rest, k => if e.1 = k then rest else e :: eraseKey rest k

/-- Dict write `_response_cache[key] = (text, ts)`: update in place when
the key exists, append otherwise. -/
def insertEntry : Cache → String → String → Int → Cache
  | [], k, v, ts => [(k, v, ts)]
  | e :: rest, k, v, ts =>
    if e.1 = k then (k, v, ts) :: rest else e :: insertEntry rest k v ts

/-- `min(_response_cache, key=lambda k: _response_cache[k][1])`:
the first entry (in iteration order) with the minimal timestamp. -/
def oldestEntry : Cache → Option (String × String × Int)
  | [] => none
  | e :: rest =>
    match oldestEntry rest with
    | none => some e
    | some b => if b.2.2 < e.2.2 then some b else some e

/-- `_cache_key(prompt, tenant_id, user_id)`. The source hashes
`f"{normalized}|{tenant_id or ''}|{user_id or ''}"` with SHA-256; the
model keeps the joined pre-image itself, treating the collision-resistant
digest as injective (the spec relies on exactly this). -/
def _cache_key (prompt : String) (tenantId userId : Option String) : String :=
  toLowerStr (strTrim prompt) ++ "|" ++ tenantId.getD "" ++ "|" ++ userId.getD ""

/-- `_get_cached(key)` at time `now`, with TTL `ttl`. Returns the hit (if
any) together with the possibly-mutated cache (an expired entry is
popped). -/
def _get_cached (ttl : Int) (c : Cache) (now : Int) (key : String) :
    Option String × Cache :=
  match cacheLookup c key with
  | none => (none, c)
  | some (t, ts) =>
    if ttl < now - ts then (none, eraseKey c key) else (some t, c)

/-- The expired-entry eviction phase of `_set_cached`: when the store is
at capacity, drop up to ten already-expired entries
(`for k in expired[:10]: _response_cache.pop(k, None)`). -/
def _evict_expired (ttl : Int) (maxEntries : Nat) (c : Cache) (now : Int) : Cache :=
  if maxEntries ≤ c.length then
    let expired := (c.filter (fun e => ttl < now - e.2.2)).map (fun e => e.1)
    (expired.take 10).foldl (fun acc k => eraseKey acc k) c
  else c

/-- `_set_cached(key, text)` at time `now`: evict expired entries when at
capacity, then the single oldest entry when still at capacity, then
insert. -/
def _set_cached (ttl : Int) (maxEntries : Nat) (c : Cache) (now : Int)
    (key text : String) : Cache :=
  let c1 := _evict_expired ttl maxEntries c now
  let c2 :=
    if maxEntries ≤ c1.length then
      match oldestEntry c1 with
      | some e => eraseKey c1 e.1
      | none => c1
    else c1
  insertEntry c2 key text now

/-! ## Agent-worthiness classifier (`main.py` lines 51-55, 96-99) -/

/-- `AGENT_WORTHY_PHRASES`. -/
def AGENT_WORTHY_PHRASES : List String :=
  ["appointment", "schedule", "book", "reschedule", "cancel appointment",
   "callback", "schedule a call", "get appointment", "my appointments",
   "weather", "search", "knowledge", "refill", "prescription refill"]

/-- `_is_agent_worthy(prompt)`: case-insensitive substring match against
the fixed trigger-phrase list. -/
def _is_agent_worthy (prompt : String) : Bool :=
  AGENT_WORTHY_PHRASES.any (fun p => strContains (toLowerStr prompt) p)

/-! ## Collaborator results and the run oracle (`clients.py` payloads) -/

/-- The `classify_intent` payload (`call_llm_router`): suggested model and
provider; absent in the unconfigured mock. -/
structure IntentResult where
  model : Option String := none
  provider : Option String := none
deriving DecidableEq

/-- The `agent_execution` payload (`call_agent_runtime`): the agent's
`output` field, `none` when the service reported no output. -/
structure AgentResult where
  output : Option String := none
deriving DecidableEq

/-- The `knowledge_retrieval` payload (`call_rag_service`): the retrieved
snippets (opaque to the coordinator). -/
structure RagContext where
  snippets : List String := []
deriving DecidableEq

/-- The `generate_response` payload (`call_llm_generate`): the generated
`content` field. -/
structure GenResult where
  content : Option String := none
deriving DecidableEq

/-- The `validate_output` payload (`call_safety_guardrails`):
`is_safe`, optional `validated_text`, `requires_escalation`. A missing
boolean field is falsy in the source, so booleans are plain `Bool`. -/
structure ValidationResult where
  is_safe : Bool
  validated_text : Option String := none
  requires_escalation : Bool := false
deriving DecidableEq

/-- One fixed set of collaborator responses for a run: each field is the
outcome of the corresponding awaited client call (`.error msg` models a
raised exception). Validation is a function of the text sent to it, as in
`clients.call_safety_guardrails(generated_text)`. -/
structure Oracle where
  intent : Except String IntentResult
  agent : Except String AgentResult
  rag : Except String RagContext
  generate : Except String GenResult
  validate : String → Except String ValidationResult

/-! ## Full-response pipeline (`run_pipeline`, `main.py` lines 729-859) -/

/-- The successful outcome of a run: the recorded steps, the value of the
`generated_text` local at validation time, and `final_response`. -/
structure RunOk where
  steps : List StepRec
  generated : String
  final : Option String
deriving DecidableEq

/-- The aborted outcome of a run: the steps persisted so far (the failing
one last) and the surfaced HTTP 500 detail. -/
structure PipeFailure where
  steps : List StepRec
  detail : String
deriving DecidableEq

/-- `HTTPException(status_code=500, detail=f"Pipeline execution failed: {e}")`. -/
def pipelineDetail (e : String) : String :=
  "Pipeline execution failed: " ++ e

/-- The fixed escalation advisory prepended when
`validation_result.get("requires_escalation")` is truthy. -/
def escalationBanner : String :=
  "⚠️ This may require immediate attention. Please connect with a staff member as soon as possible. "

/-- Final-response assembly of `run_pipeline` (lines 815-827): the
sanitized text — defaulting to the redaction placeholder when unsafe —
with the escalation banner prepended when requested. -/
def assembleFinal (vr : ValidationResult) : Option String :=
  let base : Option String :=
    if vr.is_safe then vr.validated_text
    else some (vr.validated_text.getD "[Content Redacted]")
  if vr.requires_escalation then base.map (fun t => escalationBanner ++ t)
  else base

/-- Steps 4-5 of `run_pipeline` (lines 810-827): validate the generated
text, then assemble the final response. -/
def run_validate_phase (o : Oracle) (steps : List StepRec) (generated : String) :
    Except PipeFailure RunOk :=
  match o.validate generated with
  | .error e => .error ⟨steps ++ [errStep "validate_output" e], pipelineDetail e⟩
  | .ok vr =>
    .ok ⟨steps ++ [okStep "validate_output"], generated, assembleFinal vr⟩

/-- Step 3 of `run_pipeline` (lines 793-807): the standard RAG + generate
path, taken when no agent output was adopted. -/
def run_rag_phase (o : Oracle) (steps : List StepRec) : Except PipeFailure RunOk :=
  match o.rag with
  | .error e => .error ⟨steps ++ [errStep "knowledge_retrieval" e], pipelineDetail e⟩
  | .ok _ =>
    let s1 := steps ++ [okStep "knowledge_retrieval"]
    match o.generate with
    | .error e => .error ⟨s1 ++ [errStep "generate_response" e], pipelineDetail e⟩
    | .ok g =>
      run_validate_phase o (s1 ++ [okStep "generate_response"]) (g.content.getD "")

/-- The uncached body of `run_pipeline` (lines 772-827): classify intent,
branch to the agent when the prompt is agent-worthy (adopting non-empty
agent output as the generated text), otherwise RAG + generation, then
validation and final-response assembly. An exception in any step aborts
the run with the steps recorded so far. -/
def run_pipeline_core (req : PipelineRequest) (o : Oracle) :
    Except PipeFailure RunOk :=
  match o.intent with
  | .error e => .error ⟨[errStep "classify_intent" e], pipelineDetail e⟩
  | .ok _ =>
    let s1 := [okStep "classify_intent"]
    if _is_agent_worthy req.prompt then
      match o.agent with
      | .error e => .error ⟨s1 ++ [errStep "agent_execution" e], pipelineDetail e⟩
      | .ok ares =>
        let s2 := s1 ++ [okStep "agent_execution"]
        -- `if agent_output:` — Python truthiness of the output field
        let generated :=
          match ares.output with
          | some s => s
          | none => ""
        if generated = "" then run_rag_phase o s2
        else run_validate_phase o s2 generated
    else
      run_rag_phase o s1

/-- `run_pipeline` with the response cache (lines 738-759 and 829-831):
cache lookup for non-agent-worthy prompts when the TTL is positive
(returning a single synthetic `cache_hit` step on a hit), and a cache
write after a successful run with a non-empty final response. Returns the
run outcome together with the cache after the run. -/
def run_pipeline (ttl : Int) (maxEntries : Nat) (cache : Cache) (now : Int)
    (req : PipelineRequest) (o : Oracle) :
    Except PipeFailure RunOk × Cache :=
  if !(_is_agent_worthy req.prompt) && decide (0 < ttl) then
    let key := _cache_key req.prompt req.tenantId req.userId
    match _get_cached ttl cache now key with
    | (some txt, c') => (.ok ⟨[okStep "cache_hit"], "", some txt⟩, c')
    | (none, c') =>
      match run_pipeline_core req o with
      | .error f => (.error f, c')
      | .ok r =>
        match r.final with
        | some f =>
          if f = "" then (.ok r, c')
          else (.ok r, _set_cached ttl maxEntries c' now key f)
        | none => (.ok r, c')
  else
    (run_pipeline_core req o, cache)

/-! ## Streaming pipeline (`run_pipeline_stream`, lines 866-916) -/

/-- One NDJSON event of the streaming mode. -/
inductive StreamEvent where
  | status (message : String)
  | textDelta (delta : String)
  | done (finalResponse : String)
  | error (message : String)
deriving DecidableEq

/-- The tail of `event_stream` from the empty-text fallback onwards
(lines 900-913): substitute the fixed apology for an empty text, validate,
hard-code the redaction placeholder when unsafe, prepend the escalation
banner, and emit the `done` event. -/
def stream_after_generated (o : Oracle) (evs : List StreamEvent)
    (generatedText : String) : List StreamEvent :=
  let generated :=
    if generatedText = "" then "I couldn't generate a response for that."
    else generatedText
  let evs := evs ++ [StreamEvent.status "Validating..."]
  match o.validate generated with
  | .error e => evs ++ [StreamEvent.error e]
  | .ok vr =>
    let final := vr.validated_text.getD generated
    let final := if vr.is_safe then final else "[Content Redacted]"
    let final :=
      if vr.requires_escalation then escalationBanner ++ final else final
    evs ++ [StreamEvent.done final]

/-- The `str(e)` of the `AttributeError` raised at line 890: the
streaming driver iterates `clients.call_llm_generate_stream(...)`, but
`clients.py` defines no function of that name, so the attribute access
raises unconditionally and the surrounding `except` turns it into an
`error` event. -/
def llmGenerateStreamMissingMsg : String :=
  "module 'orchestration_engine.clients' has no attribute 'call_llm_generate_stream'"

/-- `event_stream` (lines 875-916): the event sequence of a streaming
run. The agent branch adopts the stripped agent output and proceeds to
validation; the non-agent branch, after the `"Generating response..."`
status, evaluates `clients.call_llm_generate_stream` — which does not
exist — so it raises `AttributeError` and the stream ends with an
`error` event: no `text_delta` and no `done` event is ever produced on
that path. -/
def run_pipeline_stream (req : PipelineRequest) (o : Oracle) :
    List StreamEvent :=
  let evs := [StreamEvent.status "Classifying intent..."]
  match o.intent with
  | .error e => evs ++ [StreamEvent.error e]
  | .ok _ =>
    if _is_agent_worthy req.prompt then
      let evs := evs ++ [StreamEvent.status "Running agent..."]
      match o.agent with
      | .error e => evs ++ [StreamEvent.error e]
      | .ok ares =>
        stream_after_generated o evs (strTrim (ares.output.getD ""))
    else
      let evs := evs ++ [StreamEvent.status "Searching knowledge base..."]
      match o.rag with
      | .error e => evs ++ [StreamEvent.error e]
      | .ok _ =>
        evs ++ [StreamEvent.status "Generating response..."]
          ++ [StreamEvent.error llmGenerateStreamMissingMsg]

/-- The text of the first `done` event of a stream, if any. -/
def doneText : List StreamEvent → Option String
  | [] => none
  | StreamEvent.done f :: _ => some f
  | _ :: rest => doneText rest

/-- The `final_response` of a completed full-mode run, if any. -/
def fullFinal : Except PipeFailure RunOk → Option String
  | .ok r => r.final
  | .error _ => none

/-- The step list recorded by a run, completed or aborted. -/
def runSteps : Except PipeFailure RunOk → List StepRec
  | .ok r => r.steps
  | .error f => f.steps

/-! ## Collaborator client + retry wrapper (`clients.py` lines 18-45, 66-70, 110-114, 141-145) -/

/-- An HTTP response from the transport: status code plus decoded body. -/
structure HttpResponse (α : Type) where
  statusCode : Nat
  body : α
deriving DecidableEq

/-- The observable outcome of `_request_with_retry`: the returned
response or re-raised exception, the number of transport attempts made,
and the back-off sleeps performed (milliseconds). -/
structure RetryOutcome (α : Type) where
  result : Except String (HttpResponse α)
  attempts : Nat
  sleepsMs : List Nat
deriving DecidableEq

/-- `_request_with_retry`: the `for attempt in range(3)` loop unrolled.
The transport is a function from the attempt index to that attempt's
outcome; a failed attempt below index 2 sleeps `0.3 * (attempt + 1)`
seconds (300·(attempt+1) ms) and retries; the final failure re-raises
the last exception. -/
def _request_with_retry {α : Type} (t : Nat → Except String (HttpResponse α)) :
    RetryOutcome α :=
  match t 0 with
  | .ok r => ⟨.ok r, 1, []⟩
  | .error _ =>
    match t 1 with
    | .ok r => ⟨.ok r, 2, [300]⟩
    | .error _ =>
      match t 2 with
      | .ok r => ⟨.ok r, 3, [300, 600]⟩
      | .error e2 => ⟨.error e2, 3, [300, 600]⟩

/-- A failed collaborator call as seen by the coordinator: either a
re-raised transport exception, or the `HTTPStatusError` raised by
`response.raise_for_status()` on a non-2xx response. -/
inductive CollaboratorError where
  | transport (message : String)
  | httpStatus (code : Nat)
deriving DecidableEq

/-- httpx `response.is_success`: a 2xx status code. -/
def is_success (code : Nat) : Bool :=
  200 ≤ code && code < 300

/-- Shared shape of every configured client call: run the transport
through the retry wrapper, then `raise_for_status()`, then return the
decoded body. -/
def requestJson {α : Type} (t : Nat → Except String (HttpResponse α)) :
    Except CollaboratorError α :=
  match (_request_with_retry t).result with
  | .error e => .error (.transport e)
  | .ok resp =>
    if is_success resp.statusCode then .ok resp.body
    else .error (.httpStatus resp.statusCode)

/-- `call_llm_router(prompt)`: hard-coded mock
`{"mock": "llm_router_response"}` (no model/provider keys) when
`LLM_ROUTER_URL` is unset, otherwise retry + raise_for_status + json. -/
def call_llm_router (configured : Bool)
    (t : Nat → Except String (HttpResponse IntentResult)) :
    Except CollaboratorError IntentResult :=
  if !configured then .ok {}
  else requestJson t

/-- `call_agent_runtime(prompt, patient_id)`: hard-coded mock
`{"mock": ..., "output": None}` when `AGENT_RUNTIME_URL` is unset. -/
def call_agent_runtime (configured : Bool)
    (t : Nat → Except String (HttpResponse AgentResult)) :
    Except CollaboratorError AgentResult :=
  if !configured then .ok ⟨none⟩
  else requestJson t

/-- `call_safety_guardrails(text)`: hard-coded mock
`{"mock": ..., "is_safe": True, "validated_text": text}` (no
`requires_escalation` key, hence falsy) when `SAFETY_GUARDRAILS_URL` is
unset. -/
def call_safety_guardrails (configured : Bool) (text : String)
    (t : Nat → Except String (HttpResponse ValidationResult)) :
    Except CollaboratorError ValidationResult :=
  if !configured then .ok ⟨true, some text, false⟩
  else requestJson t

/-- `call_llm_generate(...)`: hard-coded mock
`{"mock": ..., "content": "mocked response"}` when `LLM_ROUTER_URL` is
unset. -/
def call_llm_generate (configured : Bool)
    (t : Nat → Except String (HttpResponse GenResult)) :
    Except CollaboratorError GenResult :=
  if !configured then .ok ⟨some "mocked response"⟩
  else requestJson t

/-! ## Step execution recorder (`execute_step`, `main.py` lines 115-147) -/

/-- One persisted state of a `PipelineStep` row. -/
structure StepRow where
  stepName : String
  status : String
  input : String
  output : Option String := none
  errorMessage : Option String := none
  startTime : Int
  endTime : Option Int := none
deriving DecidableEq

/-- `execute_step` for one step whose wrapped coroutine finishes with
`outcome` (`.ok result` or a raised exception). `t0` is the creation
time, `t1` the finalization time. Returns the returned-or-reraised
outcome together with the sequence of row states persisted by the two
`db.commit()` calls: the opening `in_progress` state and the terminal
state written by the `finally` block. -/
def execute_step (t0 t1 : Int) (name input : String)
    (outcome : Except String String) :
    Except String String × List StepRow :=
  let initial : StepRow :=
    { stepName := name, status := "in_progress", input := input,
      startTime := t0 }
  match outcome with
  | .ok r =>
    (.ok r,
     [initial,
      { initial with status := "success", output := some r, endTime := some t1 }])
  | .error e =>
    (.error e,
     [initial,
      { initial with status := "error", errorMessage := some e, endTime := some t1 }])

/-! ## Cache lemmas -/

lemma eraseKey_length_le (c : Cache) (k : String) :
    (eraseKey c k).length ≤ c.length := by
  induction c with
  | nil => simp [eraseKey]
  | cons e rest ih =>
    simp only [eraseKey, List.length_cons]
    by_cases h : e.1 = k
    · simp only [if_pos h]
      omega
    · simp only [if_neg h, List.length_cons]
      omega

lemma length_le_eraseKey_succ (c : Cache) (k : String) :
    c.length ≤ (eraseKey c k).length + 1 := by
  induction c with
  | nil => simp [eraseKey]
  | cons e rest ih =>
    simp only [eraseKey, List.length_cons]
    by_cases h : e.1 = k
    · simp only [if_pos h]
      omega
    · simp only [if_neg h, List.length_cons]
      omega

lemma cacheLookup_isSome_of_mem {c : Cache} {e : String × String × Int}
    (h : e ∈ c) : cacheLookup c e.1 ≠ none := by
  induction c with
  | nil => simp at h
  | cons f rest ih =>
    rcases List.mem_cons.mp h with h | h
    · subst h; simp [cacheLookup]
    · by_cases hf : f.1 = e.1 <;> simp [cacheLookup, hf]
      exact ih h

lemma eraseKey_length_lt {c : Cache} {k : String}
    (h : cacheLookup c k ≠ none) : (eraseKey c k).length < c.length := by
  induction c with
  | nil => simp [cacheLookup] at h
  | cons e rest ih =>
    by_cases he : e.1 = k
    · simp [eraseKey, he]
    · simp only [cacheLookup, he, if_false] at h
      have := ih h
      simp [eraseKey, he]
      omega

lemma oldestEntry_mem {c : Cache} {e : String × String × Int}
    (h : oldestEntry c = some e) : e ∈ c := by
  induction c with
  | nil => simp [oldestEntry] at h
  | cons f rest ih =>
    rcases hr : oldestEntry rest with _ | b
    · rw [oldestEntry, hr] at h
      simp at h
      simp [h]
    · rw [oldestEntry, hr] at h
      by_cases hb : b.2.2 < f.2.2
      · simp [hb] at h
        subst h
        exact List.mem_cons_of_mem _ (ih hr)
      · simp [hb] at h
        simp [h]

lemma oldestEntry_isSome {c : Cache} (h : c ≠ []) :
    ∃ e, oldestEntry c = some e := by
  cases c with
  | nil => exact absurd rfl h
  | cons f rest =>
    rw [oldestEntry]
    rcases oldestEntry rest with _ | b
    · exact ⟨f, rfl⟩
    · by_cases hb : b.2.2 < f.2.2 <;> simp [hb]

lemma foldl_eraseKey_length_le (ks : List String) (c : Cache) :
    (ks.foldl (fun acc k => eraseKey acc k) c).length ≤ c.length := by
  induction ks generalizing c with
  | nil => simp
  | cons k ks ih =>
    simp only [List.foldl_cons]
    exact le_trans (ih _) (eraseKey_length_le c k)

lemma foldl_eraseKey_length_ge (ks : List String) (c : Cache) :
    c.length ≤ (ks.foldl (fun acc k => eraseKey acc k) c).length + ks.length := by
  induction ks generalizing c with
  | nil => simp
  | cons k ks ih =>
    simp only [List.foldl_cons, List.length_cons]
    have h1 := length_le_eraseKey_succ c k
    have h2 := ih (eraseKey c k)
    omega

lemma insertEntry_length_le (c : Cache) (k v : String) (ts : Int) :
    (insertEntry c k v ts).length ≤ c.length + 1 := by
  induction c with
  | nil => simp [insertEntry]
  | cons e rest ih =>
    simp only [insertEntry, List.length_cons]
    by_cases h : e.1 = k
    · simp only [if_pos h, List.length_cons]
      omega
    · simp only [if_neg h, List.length_cons]
      omega

lemma cacheLookup_insertEntry_self (c : Cache) (k v : String) (ts : Int) :
    cacheLookup (insertEntry c k v ts) k = some (v, ts) := by
  induction c with
  | nil => simp [insertEntry, cacheLookup]
  | cons e rest ih =>
    by_cases h : e.1 = k <;> simp [insertEntry, h, cacheLookup, ih]

lemma evict_expired_length_le (ttl : Int) (maxEntries : Nat) (c : Cache) (now : Int) :
    (_evict_expired ttl maxEntries c now).length ≤ c.length := by
  unfold _evict_expired
  by_cases h : maxEntries ≤ c.length <;> simp [h]
  exact foldl_eraseKey_length_le _ c

/-! ## Pipeline step-list shape lemmas -/

lemma run_validate_phase_head (o : Oracle) (a : StepRec) (rest : List StepRec)
    (g : String) :
    ((runSteps (run_validate_phase o (a :: rest) g)).map StepRec.name).head? =
      some a.name := by
  unfold run_validate_phase
  rcases o.validate g with e | vr <;> simp [runSteps]

lemma run_rag_phase_head (o : Oracle) (a : StepRec) (rest : List StepRec) :
    ((runSteps (run_rag_phase o (a :: rest))).map StepRec.name).head? =
      some a.name := by
  unfold run_rag_phase
  rcases o.rag with e | r
  · simp [runSteps]
  · rcases o.generate with e | g
    · simp [runSteps]
    · have h := run_validate_phase_head o a
        (rest ++ [okStep "knowledge_retrieval"] ++ [okStep "generate_response"])
        ((g.content).getD "")
      simpa [List.cons_append, List.append_assoc] using h

lemma run_pipeline_core_head (req : PipelineRequest) (o : Oracle) :
    ((runSteps (run_pipeline_core req o)).map StepRec.name).head? =
      some "classify_intent" := by
  unfold run_pipeline_core
  rcases o.intent with e | i
  · simp [runSteps, errStep]
  · cases hw : _is_agent_worthy req.prompt
    · simp only [hw, Bool.false_eq_true, if_false]
      have h := run_rag_phase_head o (okStep "classify_intent") []
      simpa [okStep] using h
    · simp only [hw, if_true]
      rcases o.agent with e | ares
      · simp [runSteps, okStep]
      · dsimp only
        split
        · have h := run_rag_phase_head o (okStep "classify_intent")
            [okStep "agent_execution"]
          simpa [okStep] using h
        · have h := run_validate_phase_head o (okStep "classify_intent")
            [okStep "agent_execution"]
            (match ares.output with
             | some s => s
             | none => "")
          simpa [okStep] using h

/-- On a cache miss the run outcome is exactly the uncached pipeline body
(the cache write only affects the cache component). -/
lemma run_pipeline_fst_miss (ttl : Int) (maxEntries : Nat) (c c' : Cache)
    (now : Int) (req : PipelineRequest) (o : Oracle)
    (hw : _is_agent_worthy req.prompt = false) (httl : 0 < ttl)
    (h : _get_cached ttl c now (_cache_key req.prompt req.tenantId req.userId) =
      (none, c')) :
    (run_pipeline ttl maxEntries c now req o).1 = run_pipeline_core req o := by
  unfold run_pipeline
  simp only [hw, Bool.not_false, Bool.true_and, decide_eq_true_eq, httl, if_true, h]
  rcases run_pipeline_core req o with f | r
  · rfl
  · obtain ⟨steps, gen, fin⟩ := r
    rcases fin with _ | f
    · rfl
    · by_cases hf : f = "" <;> simp [hf]

/-- C8: the cache `get` operation returns the cached text iff an entry
for the key is present and `now - created_at ≤ ttl`; an entry that is
present but older than the TTL is removed and a miss is reported; and a
request whose cache entry has expired takes the full pipeline run (its
first recorded step is `classify_intent`, not `cache_hit`). -/
theorem cache_get_contract (ttl : Int) (c : Cache) (now : Int) (key : String) :
    (∀ txt, (_get_cached ttl c now key).1 = some txt ↔
      ∃ ts, cacheLookup c key = some (txt, ts) ∧ now - ts ≤ ttl) ∧
    (∀ txt ts, cacheLookup c key = some (txt, ts) → ttl < now - ts →
      _get_cached ttl c now key = (none, eraseKey c key)) ∧
    (∀ (maxEntries : Nat) (req : PipelineRequest) (o : Oracle)
        (txt : String) (ts : Int),
      _is_agent_worthy req.prompt = false → 0 < ttl →
      cacheLookup c (_cache_key req.prompt req.tenantId req.userId) =
        some (txt, ts) →
      ttl < now - ts →
      ((runSteps (run_pipeline ttl maxEntries c now req o).1).map
        StepRec.name).head? = some "classify_intent") := by
  refine ⟨?_, ?_, ?_⟩
  · intro txt
    unfold _get_cached
    rcases hcl : cacheLookup c key with _ | ⟨t, ts0⟩
    · simp
    · by_cases hex : ttl < now - ts0
      · simp only [if_pos hex]
        constructor
        · intro h
          simp at h
        · rintro ⟨ts, hts, hle⟩
          injection hts with h'
          injection h' with h1 h2
          subst h2
          exact absurd hle (by omega)
      · simp only [if_neg hex]
        constructor
        · intro h
          injection h with h'
          exact ⟨ts0, by rw [h'], by omega⟩
        · rintro ⟨ts, hts, hle⟩
          injection hts with h'
          injection h' with h1 h2
          simp [h1]
  · intro txt ts hcl hex
    unfold _get_cached
    rw [hcl]
    simp [hex]
  · intro maxEntries req o txt ts hw httl hcl hex
    have hmiss : _get_cached ttl c now
        (_cache_key req.prompt req.tenantId req.userId) =
        (none, eraseKey c (_cache_key req.prompt req.tenantId req.userId)) := by
      unfold _get_cached
      rw [hcl]
      simp [hex]
    rw [run_pipeline_fst_miss ttl maxEntries c _ now req o hw httl hmiss]
    exact run_pipeline_core_head req o

/-- The sample oracle used by concrete witnesses: every collaborator
succeeds and validation echoes its input as safe. -/
def sampleOracle : Oracle :=
  ⟨.ok {}, .ok ⟨none⟩, .ok {}, .ok ⟨some "hi"⟩, fun t => .ok ⟨true, some t, false⟩⟩

/-- Witness for `cache_get_contract` at a concrete expired entry. -/
theorem cache_get_contract_witness :
    _get_cached 300 [("hello||", "v", 10)] 500 "hello||" =
      (none, eraseKey [("hello||", "v", 10)] "hello||") ∧
    ((runSteps (run_pipeline 300 1000 [("hello||", "v", 10)] 500
        ⟨"s1", "hello", none, none, none⟩ sampleOracle).1).map
      StepRec.name).head? = some "classify_intent" := by
  have h := cache_get_contract 300 [("hello||", "v", 10)] 500 "hello||"
  exact ⟨h.2.1 "v" 10 (by decide) (by decide),
         h.2.2 1000 ⟨"s1", "hello", none, none, none⟩ sampleOracle "v" 10
           (by decide) (by decide) (by decide) (by decide)⟩

/-- C9: a cache `set` first evicts at most ten already-expired entries
when at capacity, then the single oldest entry when still at capacity,
then inserts — so the store size never exceeds the capacity bound, and
the expired-entry scan removes at most ten entries per call. -/
theorem cache_set_capacity (ttl : Int) (maxEntries : Nat) (c : Cache)
    (now : Int) (key text : String)
    (hmax : 1 ≤ maxEntries) (hc : c.length ≤ maxEntries) :
    (_set_cached ttl maxEntries c now key text).length ≤ maxEntries ∧
    c.length ≤ (_evict_expired ttl maxEntries c now).length + 10 := by
  constructor
  · unfold _set_cached
    have h1 : (_evict_expired ttl maxEntries c now).length ≤ c.length :=
      evict_expired_length_le ttl maxEntries c now
    dsimp only
    by_cases h2 : maxEntries ≤ (_evict_expired ttl maxEntries c now).length
    · have hne : _evict_expired ttl maxEntries c now ≠ [] := by
        intro hnil
        rw [hnil] at h2
        simp at h2
        omega
      obtain ⟨e, he⟩ := oldestEntry_isSome hne
      have hlk := cacheLookup_isSome_of_mem (oldestEntry_mem he)
      have h3 := eraseKey_length_lt hlk
      simp only [if_pos h2, he]
      have h4 := insertEntry_length_le
        (eraseKey (_evict_expired ttl maxEntries c now) e.1) key text now
      omega
    · simp only [if_neg h2]
      have h4 := insertEntry_length_le
        (_evict_expired ttl maxEntries c now) key text now
      omega
  · unfold _evict_expired
    by_cases h : maxEntries ≤ c.length
    · simp only [if_pos h]
      have hge := foldl_eraseKey_length_ge
        (((c.filter (fun e => ttl < now - e.2.2)).map (fun e => e.1)).take 10) c
      have htake := List.length_take 10
        ((c.filter (fun e => ttl < now - e.2.2)).map (fun e => e.1))
      omega
    · simp only [if_neg h]
      omega

/-- Witness for `cache_set_capacity` at a concrete full cache. -/
theorem cache_set_capacity_witness :
    (_set_cached 300 2 [("a", "x", 0), ("b", "y", 0)] 1000 "c" "z").length ≤ 2 ∧
    ([("a", "x", 0), ("b", "y", 0)] : Cache).length ≤
      (_evict_expired 300 2 [("a", "x", 0), ("b", "y", 0)] 1000).length + 10 :=
  cache_set_capacity 300 2 [("a", "x", 0), ("b", "y", 0)] 1000 "c" "z"
    (by decide) (by decide)

/-- C5: the retry wrapper makes at most three total attempts; it retries
only when the transport raised, sleeping 300 ms then 600 ms (linearly
increasing backoff); after the third consecutive failure it re-raises the
last exception; a response returned by the transport is never retried,
and a non-2xx response propagates immediately as an HTTP-status error
through `raise_for_status`. -/
theorem retry_contract {α : Type} (t : Nat → Except String (HttpResponse α)) :
    ((_request_with_retry t).attempts ≤ 3) ∧
    (∀ r, t 0 = .ok r → _request_with_retry t = ⟨.ok r, 1, []⟩) ∧
    (∀ e0 e1 r, t 0 = .error e0 → t 1 = .error e1 → t 2 = .ok r →
      _request_with_retry t = ⟨.ok r, 3, [300, 600]⟩) ∧
    (∀ e0 e1 e2, t 0 = .error e0 → t 1 = .error e1 → t 2 = .error e2 →
      _request_with_retry t = ⟨.error e2, 3, [300, 600]⟩) ∧
    (∀ r, t 0 = .ok r → is_success r.statusCode = false →
      requestJson t = .error (.httpStatus r.statusCode)) := by
  refine ⟨?_, ?_, ?_, ?_, ?_⟩
  · unfold _request_with_retry
    rcases t 0 with e0 | r0
    · rcases t 1 with e1 | r1
      · rcases t 2 with e2 | r2 <;> simp
      · simp
    · simp
  · intro r h0
    unfold _request_with_retry
    rw [h0]
  · intro e0 e1 r h0 h1 h2
    unfold _request_with_retry
    rw [h0, h1, h2]
  · intro e0 e1 e2 h0 h1 h2
    unfold _request_with_retry
    rw [h0, h1, h2]
  · intro r h0 hs
    unfold requestJson _request_with_retry
    rw [h0]
    simp [hs]

/-- A transport that raises on the first two attempts and succeeds on the
third. -/
def failTwiceTransport : Nat → Except String (HttpResponse Nat) :=
  fun n => if n < 2 then .error "boom" else .ok ⟨200, 7⟩

/-- A transport that raises on every attempt. -/
def failAlwaysTransport : Nat → Except String (HttpResponse Nat) :=
  fun _ => .error "down"

/-- A transport that always returns a 503 response. -/
def badStatusTransport : Nat → Except String (HttpResponse Nat) :=
  fun _ => .ok ⟨503, 0⟩

/-- Witness for `retry_contract`: two transport failures then success
yields the response after both backoff sleeps; three failures re-raise
the last exception; a 503 propagates as an HTTP-status error. -/
theorem retry_contract_witness :
    _request_with_retry failTwiceTransport = ⟨.ok ⟨200, 7⟩, 3, [300, 600]⟩ ∧
    _request_with_retry failAlwaysTransport = ⟨.error "down", 3, [300, 600]⟩ ∧
    requestJson badStatusTransport = .error (.httpStatus 503) := by
  refine ⟨?_, ?_, ?_⟩
  · exact (retry_contract failTwiceTransport).2.2.1 "boom" "boom" ⟨200, 7⟩
      (by decide) (by decide) (by decide)
  · exact (retry_contract failAlwaysTransport).2.2.2.1 "down" "down" "down"
      (by decide) (by decide) (by decide)
  · exact (retry_contract badStatusTransport).2.2.2.2 ⟨503, 0⟩
      (by decide) (by decide)

/-- C10: when a collaborator URL is unconfigured every client returns its
hard-coded mock instead of raising — safety validation echoes the input
as safe (bypassing validation, so the raw generated text becomes the
final response), the agent mock reports no output (so every agent-worthy
run falls through to the RAG/generation path and records both
`knowledge_retrieval` and `generate_response`), and the router/generation
mocks return fixed payloads. -/
theorem unconfigured_mock_fallback :
    (∀ (text : String) (t : Nat → Except String (HttpResponse ValidationResult)),
      call_safety_guardrails false text t = .ok ⟨true, some text, false⟩) ∧
    (∀ t, call_agent_runtime false t = .ok ⟨none⟩) ∧
    (∀ t, call_llm_router false t = .ok {}) ∧
    (∀ t, call_llm_generate false t = .ok ⟨some "mocked response"⟩) ∧
    (∀ (req : PipelineRequest) (i : IntentResult) (r : RagContext) (g : String),
      _is_agent_worthy req.prompt = true →
      run_pipeline_core req
        ⟨.ok i, .ok ⟨none⟩, .ok r, .ok ⟨some g⟩,
         fun s => .ok ⟨true, some s, false⟩⟩ =
        .ok ⟨[okStep "classify_intent", okStep "agent_execution",
              okStep "knowledge_retrieval", okStep "generate_response",
              okStep "validate_output"], g, some g⟩) := by
  refine ⟨fun text t => rfl, fun t => rfl, fun t => rfl, fun t => rfl, ?_⟩
  intro req i r g hw
  unfold run_pipeline_core run_rag_phase run_validate_phase
  simp [hw, assembleFinal]

/-- Witness for `unconfigured_mock_fallback` at a concrete agent-worthy
prompt running against the unconfigured mocks. -/
theorem unconfigured_mock_fallback_witness :
    run_pipeline_core ⟨"s1", "Book an appointment", none, none, none⟩
      ⟨.ok {}, .ok ⟨none⟩, .ok {}, .ok ⟨some "raw text"⟩,
       fun s => .ok ⟨true, some s, false⟩⟩ =
      .ok ⟨[okStep "classify_intent", okStep "agent_execution",
            okStep "knowledge_retrieval", okStep "generate_response",
            okStep "validate_output"], "raw text", some "raw text"⟩ :=
  unconfigured_mock_fallback.2.2.2.2
    ⟨"s1", "Book an appointment", none, none, none⟩ {} {} "raw text" (by decide)

/-! ## Error propagation shape of an aborted run -/

lemma run_validate_phase_error (o : Oracle) (steps : List StepRec) (g : String)
    (f : PipeFailure) (h : run_validate_phase o steps g = .error f) :
    ∃ e, f.steps = steps ++ [errStep "validate_output" e] ∧
      f.detail = pipelineDetail e := by
  unfold run_validate_phase at h
  rcases hv : o.validate g with e | vr
  · rw [hv] at h
    injection h with h'
    exact ⟨e, by rw [← h'], by rw [← h']⟩
  · rw [hv] at h
    simp at h

lemma run_rag_phase_error (o : Oracle) (steps : List StepRec)
    (f : PipeFailure) (h : run_rag_phase o steps = .error f) :
    ∃ prev nm e, f.steps = steps ++ (prev ++ [errStep nm e]) ∧
      (∀ s ∈ prev, s.status = "success") ∧
      f.detail = pipelineDetail e := by
  unfold run_rag_phase at h
  rcases hr : o.rag with e | r
  · rw [hr] at h
    injection h with h'
    refine ⟨[], "knowledge_retrieval", e, ?_, by simp, by rw [← h']⟩
    rw [← h']
    simp
  · rw [hr] at h
    rcases hg : o.generate with e | g
    · rw [hg] at h
      injection h with h'
      refine ⟨[okStep "knowledge_retrieval"], "generate_response", e, ?_,
        by simp [okStep], by rw [← h']⟩
      rw [← h']
      simp
    · rw [hg] at h
      obtain ⟨e, h1, h2⟩ := run_validate_phase_error o _ _ f h
      refine ⟨[okStep "knowledge_retrieval", okStep "generate_response"],
        "validate_output", e, ?_, by simp [okStep], h2⟩
      rw [h1]
      simp

lemma run_core_error_shape (req : PipelineRequest) (o : Oracle)
    (f : PipeFailure) (h : run_pipeline_core req o = .error f) :
    ∃ prev nm e, f.steps = prev ++ [errStep nm e] ∧
      (∀ s ∈ prev, s.status = "success") ∧
      f.detail = pipelineDetail e := by
  unfold run_pipeline_core at h
  rcases hi : o.intent with e | i
  · rw [hi] at h
    injection h with h'
    exact ⟨[], "classify_intent", e, by rw [← h']; simp, by simp, by rw [← h']⟩
  · rw [hi] at h
    by_cases hw : _is_agent_worthy req.prompt
    · rw [if_pos hw] at h
      rcases ha : o.agent with e | ares
      · rw [ha] at h
        injection h with h'
        exact ⟨[okStep "classify_intent"], "agent_execution", e,
          by rw [← h'], by simp [okStep], by rw [← h']⟩
      · rw [ha] at h
        dsimp only at h
        split at h
        · obtain ⟨prev, nm, e, h1, h2, h3⟩ := run_rag_phase_error o _ f h
          refine ⟨[okStep "classify_intent", okStep "agent_execution"] ++ prev,
            nm, e, ?_, ?_, h3⟩
          · rw [h1]
            simp
          · intro s hs
            rcases List.mem_append.mp hs with hs | hs
            · simp only [List.mem_cons, List.not_mem_nil, or_false] at hs
              rcases hs with rfl | rfl <;> rfl
            · exact h2 s hs
        · obtain ⟨e, h1, h2⟩ := run_validate_phase_error o _ _ f h
          refine ⟨[okStep "classify_intent", okStep "agent_execution"],
            "validate_output", e, ?_, by simp [okStep], h2⟩
          rw [h1]
          simp
    · rw [if_neg hw] at h
      obtain ⟨prev, nm, e, h1, h2, h3⟩ := run_rag_phase_error o _ f h
      refine ⟨[okStep "classify_intent"] ++ prev, nm, e, ?_, ?_, h3⟩
      · rw [h1]
        simp
      · intro s hs
        rcases List.mem_append.mp hs with hs | hs
        · simp only [List.mem_singleton] at hs
          subst hs
          rfl
        · exact h2 s hs

/-- An oracle whose `classify_intent` call raises. -/
def classifyFailOracle : Oracle :=
  ⟨.error "boom", .ok ⟨none⟩, .ok {}, .ok ⟨some "hi"⟩,
   fun t => .ok ⟨true, some t, false⟩⟩

/-- C2 counterexample: when `classify_intent` raises `"boom"`, the
surfaced error detail is `"Pipeline execution failed: boom"` — it carries
the exception message but does not name the failing step, contradicting
the claim that the surfaced error names the step. -/
theorem pipeline_error_no_step_name_cex :
    run_pipeline_core ⟨"s1", "hello", none, none, none⟩ classifyFailOracle =
      .error ⟨[errStep "classify_intent" "boom"],
              "Pipeline execution failed: boom"⟩ ∧
    strContains "Pipeline execution failed: boom" "classify_intent" = false := by
  exact ⟨rfl, by decide⟩

/-- C2 (amended): a run in which some step raises aborts at that step —
the recorded step list ends with the failing step (status `error`, the
exception message recorded), every earlier recorded step is a success,
and the surfaced error is `"Pipeline execution failed: "` followed by the
exception's message alone: no stack trace, and no step name. -/
theorem pipeline_error_shape (req : PipelineRequest) (o : Oracle)
    (f : PipeFailure) (h : run_pipeline_core req o = .error f) :
    ∃ prev nm e, f.steps = prev ++ [errStep nm e] ∧
      (∀ s ∈ prev, s.status = "success") ∧
      f.detail = pipelineDetail e :=
  run_core_error_shape req o f h

/-- Witness for `pipeline_error_shape` at the concrete failing run. -/
theorem pipeline_error_shape_witness :
    ∃ prev nm e,
      (⟨[errStep "classify_intent" "boom"],
        "Pipeline execution failed: boom"⟩ : PipeFailure).steps =
        prev ++ [errStep nm e] ∧
      (∀ s ∈ prev, s.status = "success") ∧
      (⟨[errStep "classify_intent" "boom"],
        "Pipeline execution failed: boom"⟩ : PipeFailure).detail =
        pipelineDetail e :=
  pipeline_error_shape ⟨"s1", "hello", none, none, none⟩ classifyFailOracle
    ⟨[errStep "classify_intent" "boom"], "Pipeline execution failed: boom"⟩ rfl

/-- C7: `execute_step` opens the row in_progress with the input and start
time recorded and no end time; it finalizes exactly once on every exit
path — on success the output is recorded and the result returned, on
exception the message is recorded and the exception re-raised — the end
time is set exactly on the rows carrying a terminal status; and the steps
recorded before a later failing step remain persisted (all steps before
the last of an aborted run are successes). -/
theorem step_lifecycle (t0 t1 : Int) (name input : String)
    (outcome : Except String String) :
    ((execute_step t0 t1 name input outcome).2.length = 2) ∧
    ((execute_step t0 t1 name input outcome).2.head? =
      some ⟨name, "in_progress", input, none, none, t0, none⟩) ∧
    (∀ r, outcome = .ok r →
      execute_step t0 t1 name input outcome =
        (.ok r, [⟨name, "in_progress", input, none, none, t0, none⟩,
                 ⟨name, "success", input, some r, none, t0, some t1⟩])) ∧
    (∀ e, outcome = .error e →
      execute_step t0 t1 name input outcome =
        (.error e, [⟨name, "in_progress", input, none, none, t0, none⟩,
                    ⟨name, "error", input, none, some e, t0, some t1⟩])) ∧
    (∀ row ∈ (execute_step t0 t1 name input outcome).2,
      (row.endTime = some t1 ↔ (row.status = "success" ∨ row.status = "error"))) ∧
    (∀ (req : PipelineRequest) (o : Oracle) (f : PipeFailure),
      run_pipeline_core req o = .error f →
      ∀ s ∈ f.steps.dropLast, s.status = "success") := by
  refine ⟨?_, ?_, ?_, ?_, ?_, ?_⟩
  · rcases outcome with e | r <;> rfl
  · rcases outcome with e | r <;> rfl
  · rintro r rfl
    rfl
  · rintro e rfl
    rfl
  · intro row hrow
    rcases outcome with e | r
    · simp only [execute_step, List.mem_cons, List.not_mem_nil, or_false] at hrow
      rcases hrow with rfl | rfl
      · refine iff_of_false (fun hc => Option.noConfusion hc) ?_
        rintro (hc | hc)
        · have hx : "in_progress" = "success" := hc
          exact absurd hx (by decide)
        · have hx : "in_progress" = "error" := hc
          exact absurd hx (by decide)
      · exact iff_of_true rfl (Or.inr rfl)
    · simp only [execute_step, List.mem_cons, List.not_mem_nil, or_false] at hrow
      rcases hrow with rfl | rfl
      · refine iff_of_false (fun hc => Option.noConfusion hc) ?_
        rintro (hc | hc)
        · have hx : "in_progress" = "success" := hc
          exact absurd hx (by decide)
        · have hx : "in_progress" = "error" := hc
          exact absurd hx (by decide)
      · exact iff_of_true rfl (Or.inl rfl)
  · intro req o f h s hs
    obtain ⟨prev, nm, e, h1, h2, h3⟩ := run_core_error_shape req o f h
    rw [h1, List.dropLast_concat] at hs
    exact h2 s hs

/-- Witness for `step_lifecycle` at concrete success and failure steps. -/
theorem step_lifecycle_witness :
    execute_step 5 9 "classify_intent" "inp" (.ok "res") =
      (.ok "res",
       [⟨"classify_intent", "in_progress", "inp", none, none, 5, none⟩,
        ⟨"classify_intent", "success", "inp", some "res", none, 5, some 9⟩]) ∧
    execute_step 5 9 "classify_intent" "inp" (.error "boom") =
      (.error "boom",
       [⟨"classify_intent", "in_progress", "inp", none, none, 5, none⟩,
        ⟨"classify_intent", "error", "inp", none, some "boom", 5, some 9⟩]) ∧
    (∀ s ∈ (⟨[errStep "classify_intent" "boom"],
        "Pipeline execution failed: boom"⟩ : PipeFailure).steps.dropLast,
      s.status = "success") := by
  refine ⟨(step_lifecycle 5 9 "classify_intent" "inp" (.ok "res")).2.2.1 "res" rfl,
          (step_lifecycle 5 9 "classify_intent" "inp" (.error "boom")).2.2.2.1
            "boom" rfl,
          (step_lifecycle 5 9 "classify_intent" "inp" (.ok "res")).2.2.2.2.2
            ⟨"s1", "hello", none, none, none⟩ classifyFailOracle
            ⟨[errStep "classify_intent" "boom"],
             "Pipeline execution failed: boom"⟩ rfl⟩

/-- When every collaborator call succeeds and validation returns `vr`,
the full-mode final response is exactly the assembled final text of `vr`
(in particular it does not depend on the generated text). -/
lemma run_core_final_all_ok (req : PipelineRequest) (o : Oracle)
    (i : IntentResult) (a : AgentResult) (r : RagContext) (g : GenResult)
    (vr : ValidationResult)
    (hi : o.intent = .ok i) (ha : o.agent = .ok a) (hr : o.rag = .ok r)
    (hg : o.generate = .ok g) (hv : ∀ s, o.validate s = .ok vr) :
    fullFinal (run_pipeline_core req o) = assembleFinal vr := by
  unfold run_pipeline_core
  rw [hi]
  by_cases hw : _is_agent_worthy req.prompt
  · rw [if_pos hw, ha]
    dsimp only
    split
    · unfold run_rag_phase run_validate_phase
      rw [hr, hg]
      dsimp only
      rw [hv (g.content.getD "")]
      rfl
    · unfold run_validate_phase
      rw [hv _]
      rfl
  · rw [if_neg hw]
    unfold run_rag_phase run_validate_phase
    rw [hr, hg]
    dsimp only
    rw [hv (g.content.getD "")]
    rfl

/-- The concrete unsafe validation result used by the C3 refutation:
an escalation-only flag whose sanitized text is the raw text unchanged
(exactly what the guardrails service returns for an emergency phrase with
no banned word and no PII). -/
def unsafeVr : ValidationResult := ⟨false, some "call 911 now", true⟩

/-- An oracle whose generation returns `"call 911 now"` and whose
validation flags it unsafe with escalation, echoing the raw text as the
sanitized text. -/
def unsafeEscalationOracle : Oracle :=
  ⟨.ok {}, .ok ⟨none⟩, .ok {}, .ok ⟨some "call 911 now"⟩,
   fun _ => .ok unsafeVr⟩

/-- C3 counterexample: with `is_safe=false`, `validated_text="call 911
now"` and `requires_escalation=true`, the final response is the
escalation banner prepended to the sanitized text — it is *not* equal to
the validator's `validated_text`, and the raw generated text (`"call 911
now"`) does appear inside the final output. -/
theorem unsafe_final_banner_cex :
    fullFinal (run_pipeline_core ⟨"s1", "hello", none, none, none⟩
        unsafeEscalationOracle) =
      some (escalationBanner ++ "call 911 now") ∧
    some (escalationBanner ++ "call 911 now") ≠ some "call 911 now" ∧
    strContains (escalationBanner ++ "call 911 now") "call 911 now" = true := by
  exact ⟨rfl, by decide, by decide⟩

/-- C3 (amended): for every full-mode run in which the validator returns
`is_safe=false`, the final response equals the validator's sanitized text
(defaulting to the fixed redaction placeholder when absent) with the
escalation banner prepended exactly when `requires_escalation=true`; the
final text is a function of the validation result alone, so the raw
generated text can appear in it only through `validated_text`. -/
theorem unsafe_final_eq_sanitized (req : PipelineRequest) (o : Oracle)
    (i : IntentResult) (a : AgentResult) (r : RagContext) (g : GenResult)
    (vr : ValidationResult)
    (hi : o.intent = .ok i) (ha : o.agent = .ok a) (hr : o.rag = .ok r)
    (hg : o.generate = .ok g) (hv : ∀ s, o.validate s = .ok vr)
    (hflag : vr.is_safe = false) :
    fullFinal (run_pipeline_core req o) =
      some (if vr.requires_escalation then
              escalationBanner ++ vr.validated_text.getD "[Content Redacted]"
            else vr.validated_text.getD "[Content Redacted]") := by
  rw [run_core_final_all_ok req o i a r g vr hi ha hr hg hv]
  unfold assembleFinal
  rw [hflag]
  rcases vr.requires_escalation <;> simp

/-- Witness for `unsafe_final_eq_sanitized` at the concrete unsafe
escalating run. -/
theorem unsafe_final_eq_sanitized_witness :
    fullFinal (run_pipeline_core ⟨"s1", "hello", none, none, none⟩
        unsafeEscalationOracle) =
      some (if unsafeVr.requires_escalation then
              escalationBanner ++ unsafeVr.validated_text.getD "[Content Redacted]"
            else unsafeVr.validated_text.getD "[Content Redacted]") :=
  unsafe_final_eq_sanitized ⟨"s1", "hello", none, none, none⟩
    unsafeEscalationOracle {} ⟨none⟩ {} ⟨some "call 911 now"⟩ unsafeVr
    rfl rfl rfl rfl (fun _ => rfl) rfl

lemma run_validate_phase_names (o : Oracle) (steps : List StepRec) (g : String) :
    (runSteps (run_validate_phase o steps g)).map StepRec.name =
      steps.map StepRec.name ++ ["validate_output"] := by
  unfold run_validate_phase
  rcases o.validate g with e | vr <;> simp [runSteps, errStep, okStep]

lemma run_validate_phase_generated (o : Oracle) (steps : List StepRec)
    (g : String) (res : RunOk) (h : run_validate_phase o steps g = .ok res) :
    res.generated = g := by
  unfold run_validate_phase at h
  rcases hv : o.validate g with e | vr
  · rw [hv] at h
    simp at h
  · rw [hv] at h
    injection h with h'
    rw [← h']

lemma run_rag_phase_names_ok (o : Oracle) (steps : List StepRec)
    (r : RagContext) (g : GenResult)
    (hr : o.rag = .ok r) (hg : o.generate = .ok g) :
    (runSteps (run_rag_phase o steps)).map StepRec.name =
      steps.map StepRec.name ++
        ["knowledge_retrieval", "generate_response", "validate_output"] := by
  unfold run_rag_phase
  rw [hr, hg]
  dsimp only
  rw [run_validate_phase_names]
  simp [okStep]

/-- C4: for every agent-worthy prompt (the pure classifier returns true)
whose collaborator calls succeed, the run records `agent_execution`
directly after `classify_intent` and before any retrieval or generation;
when the agent's output is non-empty it becomes the generated text and no
`knowledge_retrieval` or `generate_response` step is recorded; when the
agent's output is empty the run records `knowledge_retrieval` and then
`generate_response`. -/
theorem agent_branch_steps (req : PipelineRequest) (o : Oracle)
    (i : IntentResult) (a : AgentResult) (r : RagContext) (g : GenResult)
    (hw : _is_agent_worthy req.prompt = true)
    (hi : o.intent = .ok i) (ha : o.agent = .ok a)
    (hr : o.rag = .ok r) (hg : o.generate = .ok g) :
    (∀ s, a.output = some s → s ≠ "" →
      ((runSteps (run_pipeline_core req o)).map StepRec.name =
          ["classify_intent", "agent_execution", "validate_output"] ∧
        ∀ res, run_pipeline_core req o = .ok res → res.generated = s)) ∧
    ((a.output = none ∨ a.output = some "") →
      (runSteps (run_pipeline_core req o)).map StepRec.name =
        ["classify_intent", "agent_execution", "knowledge_retrieval",
         "generate_response", "validate_output"]) := by
  constructor
  · intro s hso hsne
    unfold run_pipeline_core
    rw [hi, if_pos hw, ha]
    dsimp only
    rw [hso]
    dsimp only
    rw [if_neg hsne]
    constructor
    · rw [run_validate_phase_names]
      simp [okStep]
    · intro res hres
      exact run_validate_phase_generated o _ s res hres
  · intro hout
    unfold run_pipeline_core
    rw [hi, if_pos hw, ha]
    dsimp only
    rcases hout with hout | hout <;> rw [hout] <;> dsimp only
    · rw [if_pos rfl, run_rag_phase_names_ok o _ r g hr hg]
      simp [okStep]
    · rw [if_pos rfl, run_rag_phase_names_ok o _ r g hr hg]
      simp [okStep]

/-- An oracle whose agent call returns non-empty output. -/
def agentOutOracle : Oracle :=
  ⟨.ok {}, .ok ⟨some "Booked."⟩, .ok {}, .ok ⟨some "hi"⟩,
   fun t => .ok ⟨true, some t, false⟩⟩

/-- Witness for `agent_branch_steps`: a concrete agent-worthy prompt with
non-empty agent output skips RAG/generation and adopts the agent text;
the same prompt with empty agent output falls through to
RAG/generation. -/
theorem agent_branch_steps_witness :
    ((runSteps (run_pipeline_core ⟨"s1", "Book an appointment", none, none, none⟩
        agentOutOracle)).map StepRec.name =
      ["classify_intent", "agent_execution", "validate_output"] ∧
     ∀ res, run_pipeline_core ⟨"s1", "Book an appointment", none, none, none⟩
        agentOutOracle = .ok res → res.generated = "Booked.") ∧
    (runSteps (run_pipeline_core ⟨"s1", "Book an appointment", none, none, none⟩
        sampleOracle)).map StepRec.name =
      ["classify_intent", "agent_execution", "knowledge_retrieval",
       "generate_response", "validate_output"] := by
  refine ⟨(agent_branch_steps ⟨"s1", "Book an appointment", none, none, none⟩
      agentOutOracle {} ⟨some "Booked."⟩ {} ⟨some "hi"⟩
      (by decide) rfl rfl rfl rfl).1 "Booked." rfl (by decide), ?_⟩
  exact (agent_branch_steps ⟨"s1", "Book an appointment", none, none, none⟩
      sampleOracle {} ⟨none⟩ {} ⟨some "hi"⟩
      (by decide) rfl rfl rfl rfl).2 (Or.inl rfl)

/-- For an agent-worthy prompt whose intent and agent calls succeed and
whose validation always returns `vr` carrying a sanitized text `t`, the
streaming `done` event's text is `t` (or the hard-coded redaction
placeholder when unsafe), with the escalation banner prepended when
requested. (Only the agent branch can reach validation: the non-agent
branch dies on the missing `call_llm_generate_stream`.) -/
lemma stream_done_agent (req : PipelineRequest) (o : Oracle)
    (i : IntentResult) (a : AgentResult) (vr : ValidationResult) (t : String)
    (hw : _is_agent_worthy req.prompt = true)
    (hi : o.intent = .ok i) (ha : o.agent = .ok a)
    (hv : ∀ s, o.validate s = .ok vr) (ht : vr.validated_text = some t) :
    doneText (run_pipeline_stream req o) =
      some (if vr.requires_escalation then
              escalationBanner ++ (if vr.is_safe then t else "[Content Redacted]")
            else (if vr.is_safe then t else "[Content Redacted]")) := by
  unfold run_pipeline_stream stream_after_generated
  rw [hi]
  dsimp only
  rw [if_pos hw, ha]
  dsimp only
  rw [hv]
  dsimp only
  rw [ht]
  cases hs : vr.is_safe <;> cases he : vr.requires_escalation <;>
    simp [hs, he, doneText]

/-- For a non-agent-worthy prompt whose intent and retrieval calls
succeed, the streaming run emits exactly three status events and then the
`AttributeError` of the missing `call_llm_generate_stream` as an `error`
event — never a `text_delta` or `done` event. -/
lemma stream_nonagent_events (req : PipelineRequest) (o : Oracle)
    (i : IntentResult) (r : RagContext)
    (hw : _is_agent_worthy req.prompt = false)
    (hi : o.intent = .ok i) (hr : o.rag = .ok r) :
    run_pipeline_stream req o =
      [StreamEvent.status "Classifying intent...",
       StreamEvent.status "Searching knowledge base...",
       StreamEvent.status "Generating response...",
       StreamEvent.error llmGenerateStreamMissingMsg] := by
  unfold run_pipeline_stream
  rw [hi]
  dsimp only
  rw [if_neg (by simp [hw]), hr]
  rfl

/-- The validation result on which the two modes disagree: unsafe, with a
sanitized text that is not the fixed redaction placeholder (exactly what
the guardrails service returns when it redacts PII). -/
def divergeVr : ValidationResult := ⟨false, some "Sanitized", false⟩

/-- An oracle whose agent call returns non-empty output and whose
validation produces `divergeVr`. -/
def divergeOracle : Oracle :=
  ⟨.ok {}, .ok ⟨some "raw agent text"⟩, .ok {}, .ok ⟨some "hi"⟩,
   fun _ => .ok divergeVr⟩

/-- An oracle whose validation constantly reports the safe text "hi". -/
def constSafeOracle : Oracle :=
  ⟨.ok {}, .ok ⟨none⟩, .ok {}, .ok ⟨some "hi"⟩,
   fun _ => .ok ⟨true, some "hi", false⟩⟩

/-- C1 counterexample, two concrete runs. Agent path: for identical
inputs and identical collaborator responses with `is_safe=false` and
`validated_text="Sanitized"`, the full-response mode returns the
sanitized text while the streaming mode hard-codes `"[Content Redacted]"`
in its `done` event. Non-agent path: the full mode returns a final
response while the streaming run never emits a `done` event at all (it
dies on the missing `call_llm_generate_stream`). Either way the two
modes disagree on final content. -/
theorem stream_full_divergence_cex :
    fullFinal (run_pipeline_core ⟨"s1", "Book an appointment", none, none, none⟩
        divergeOracle) = some "Sanitized" ∧
    doneText (run_pipeline_stream ⟨"s1", "Book an appointment", none, none, none⟩
        divergeOracle) = some "[Content Redacted]" ∧
    (some "Sanitized" : Option String) ≠ some "[Content Redacted]" ∧
    fullFinal (run_pipeline_core ⟨"s1", "hello", none, none, none⟩
        constSafeOracle) = some "hi" ∧
    doneText (run_pipeline_stream ⟨"s1", "hello", none, none, none⟩
        constSafeOracle) = none := by
  exact ⟨rfl, rfl, by decide, rfl, rfl⟩

/-- C1 (amended): only the agent branch of the streaming mode reaches
validation, and there, for identical inputs and identical collaborator
responses (all calls succeeding, the validation result carrying a
sanitized text `t`), the streaming `done` text equals the full-response
mode's final response whenever `is_safe=true` or `t` is exactly the
redaction placeholder `"[Content Redacted]"`; both then equal `t` with
the escalation banner prepended when requested. For every non-agent
request the streaming run emits three status events and then the
`AttributeError` of the missing `call_llm_generate_stream` as an `error`
event, never a `done` event, while the full mode returns a final
response. (And when `is_safe=false` with `t` different from the
placeholder, the agent-path streaming emits the placeholder while the
full mode returns `t`.) -/
theorem stream_full_agreement (req : PipelineRequest) (o : Oracle)
    (i : IntentResult) (a : AgentResult) (r : RagContext) (g : GenResult)
    (vr : ValidationResult) (t : String)
    (hi : o.intent = .ok i) (ha : o.agent = .ok a) (hr : o.rag = .ok r)
    (hg : o.generate = .ok g) (hv : ∀ s, o.validate s = .ok vr)
    (ht : vr.validated_text = some t)
    (hsafe : vr.is_safe = true ∨ t = "[Content Redacted]") :
    (_is_agent_worthy req.prompt = true →
      doneText (run_pipeline_stream req o) =
        fullFinal (run_pipeline_core req o) ∧
      fullFinal (run_pipeline_core req o) =
        some (if vr.requires_escalation then escalationBanner ++ t else t)) ∧
    (_is_agent_worthy req.prompt = false →
      run_pipeline_stream req o =
        [StreamEvent.status "Classifying intent...",
         StreamEvent.status "Searching knowledge base...",
         StreamEvent.status "Generating response...",
         StreamEvent.error llmGenerateStreamMissingMsg] ∧
      doneText (run_pipeline_stream req o) = none) := by
  have hfull : fullFinal (run_pipeline_core req o) =
      some (if vr.requires_escalation then escalationBanner ++ t else t) := by
    rw [run_core_final_all_ok req o i a r g vr hi ha hr hg hv]
    unfold assembleFinal
    rw [ht]
    rcases hsafe with hsafe | hsafe
    · cases he : vr.requires_escalation <;> simp [hsafe, he]
    · cases hs : vr.is_safe <;> cases he : vr.requires_escalation <;>
        simp [hs, he, hsafe]
  constructor
  · intro hw
    have hstream := stream_done_agent req o i a vr t hw hi ha hv ht
    refine ⟨?_, hfull⟩
    rw [hstream, hfull]
    rcases hsafe with hsafe | hsafe
    · simp [hsafe]
    · cases hs : vr.is_safe <;> simp [hs, hsafe]
  · intro hw
    have hevs := stream_nonagent_events req o i r hw hi hr
    exact ⟨hevs, by rw [hevs]; rfl⟩

/-- Witness for `stream_full_agreement`: an agent-worthy prompt with a
safe constant validation result gives both modes the same final text; a
non-agent prompt gives the three status events and the error event, with
no `done`. -/
theorem stream_full_agreement_witness :
    (doneText (run_pipeline_stream ⟨"s1", "Book an appointment", none, none, none⟩
        constSafeOracle) =
       fullFinal (run_pipeline_core ⟨"s1", "Book an appointment", none, none, none⟩
        constSafeOracle) ∧
     fullFinal (run_pipeline_core ⟨"s1", "Book an appointment", none, none, none⟩
        constSafeOracle) =
       some (if (⟨true, some "hi", false⟩ : ValidationResult).requires_escalation
             then escalationBanner ++ "hi" else "hi")) ∧
    (run_pipeline_stream ⟨"s1", "hello", none, none, none⟩ constSafeOracle =
       [StreamEvent.status "Classifying intent...",
        StreamEvent.status "Searching knowledge base...",
        StreamEvent.status "Generating response...",
        StreamEvent.error llmGenerateStreamMissingMsg] ∧
     doneText (run_pipeline_stream ⟨"s1", "hello", none, none, none⟩
        constSafeOracle) = none) := by
  refine ⟨(stream_full_agreement ⟨"s1", "Book an appointment", none, none, none⟩
      constSafeOracle {} ⟨none⟩ {} ⟨some "hi"⟩ ⟨true, some "hi", false⟩ "hi"
      rfl rfl rfl rfl (fun _ => rfl) rfl (Or.inl rfl)).1 (by decide), ?_⟩
  exact (stream_full_agreement ⟨"s1", "hello", none, none, none⟩
      constSafeOracle {} ⟨none⟩ {} ⟨some "hi"⟩ ⟨true, some "hi", false⟩ "hi"
      rfl rfl rfl rfl (fun _ => rfl) rfl (Or.inl rfl)).2 (by decide)

lemma cacheLookup_set_self (ttl : Int) (maxEntries : Nat) (c : Cache)
    (now : Int) (key text : String) :
    cacheLookup (_set_cached ttl maxEntries c now key text) key =
      some (text, now) := by
  unfold _set_cached
  exact cacheLookup_insertEntry_self _ _ _ _

/-- C6: when a non-agent-worthy request completes a full run (a cache
miss) with a non-empty final response, a second non-agent-worthy request
with the same normalized prompt, tenant id and user id, issued within the
TTL window of the first run's cache write, returns the identical final
response as a run whose only recorded step is the synthetic `cache_hit`
step — for *every* oracle, i.e. without consulting any collaborator — and
leaves the cache unchanged. -/
theorem cache_second_run_hit (ttl : Int) (maxEntries : Nat) (c₀ c₁ : Cache)
    (t₁ t₂ : Int) (req₁ req₂ : PipelineRequest) (o₁ : Oracle)
    (res₁ : RunOk) (f : String)
    (httl : 0 < ttl)
    (hw1 : _is_agent_worthy req₁.prompt = false)
    (hw2 : _is_agent_worthy req₂.prompt = false)
    (hnorm : toLowerStr (strTrim req₂.prompt) = toLowerStr (strTrim req₁.prompt))
    (hten : req₂.tenantId = req₁.tenantId)
    (huser : req₂.userId = req₁.userId)
    (hmiss : (_get_cached ttl c₀ t₁
      (_cache_key req₁.prompt req₁.tenantId req₁.userId)).1 = none)
    (hrun : run_pipeline ttl maxEntries c₀ t₁ req₁ o₁ = (.ok res₁, c₁))
    (hfin : res₁.final = some f) (hne : f ≠ "")
    (hfresh : t₂ - t₁ ≤ ttl) :
    ∀ o₂ : Oracle, run_pipeline ttl maxEntries c₁ t₂ req₂ o₂ =
      (.ok ⟨[okStep "cache_hit"], "", some f⟩, c₁) := by
  intro o₂
  have hkey : _cache_key req₂.prompt req₂.tenantId req₂.userId =
      _cache_key req₁.prompt req₁.tenantId req₁.userId := by
    unfold _cache_key
    rw [hnorm, hten, huser]
  unfold run_pipeline at hrun
  simp only [hw1, Bool.not_false, Bool.true_and, decide_eq_true_eq, httl,
    if_true] at hrun
  rcases hGC : _get_cached ttl c₀ t₁
      (_cache_key req₁.prompt req₁.tenantId req₁.userId) with ⟨v, c0'⟩
  rw [hGC] at hrun hmiss
  have hv : v = none := hmiss
  subst hv
  dsimp only at hrun
  rcases hcore : run_pipeline_core req₁ o₁ with pf | r
  · rw [hcore] at hrun
    dsimp only at hrun
    rw [Prod.mk.injEq] at hrun
    exact absurd hrun.1 (by simp)
  · rw [hcore] at hrun
    obtain ⟨st, gen, fin⟩ := r
    dsimp only at hrun
    rcases fin with _ | f'
    · rw [Prod.mk.injEq] at hrun
      obtain ⟨hfst, _⟩ := hrun
      injection hfst with h1
      rw [← h1] at hfin
      simp at hfin
    · dsimp only at hrun
      by_cases hf' : f' = ""
      · rw [if_pos hf', Prod.mk.injEq] at hrun
        obtain ⟨hfst, _⟩ := hrun
        injection hfst with h1
        rw [← h1] at hfin
        dsimp only at hfin
        injection hfin with h2
        subst h2
        exact absurd hf' hne
      · rw [if_neg hf', Prod.mk.injEq] at hrun
        obtain ⟨hfst, hsnd⟩ := hrun
        injection hfst with h1
        rw [← h1] at hfin
        dsimp only at hfin
        injection hfin with h2
        subst h2
        have hlook : cacheLookup c₁
            (_cache_key req₁.prompt req₁.tenantId req₁.userId) =
            some (f', t₁) := by
          rw [← hsnd]
          exact cacheLookup_set_self ttl maxEntries c0' t₁ _ f'
        have hGC2 : _get_cached ttl c₁ t₂
            (_cache_key req₁.prompt req₁.tenantId req₁.userId) =
            (some f', c₁) := by
          unfold _get_cached
          rw [hlook]
          dsimp only
          rw [if_neg (by omega)]
        unfold run_pipeline
        simp only [hw2, Bool.not_false, Bool.true_and, decide_eq_true_eq, httl,
          if_true]
        rw [hkey, hGC2]

/-- Witness for `cache_second_run_hit`: a concrete first run populates
the cache; the identical request 100 s later returns the same final
response with a single `cache_hit` step, even against an oracle whose
collaborators all fail. -/
theorem cache_second_run_hit_witness :
    run_pipeline 300 1000 [("hello||", "hi", 100)] 200
      ⟨"s1", "hello", none, none, none⟩ classifyFailOracle =
      (.ok ⟨[okStep "cache_hit"], "", some "hi"⟩, [("hello||", "hi", 100)]) := by
  exact cache_second_run_hit 300 1000 [] [("hello||", "hi", 100)] 100 200
    ⟨"s1", "hello", none, none, none⟩ ⟨"s1", "hello", none, none, none⟩
    sampleOracle
    ⟨[okStep "classify_intent", okStep "knowledge_retrieval",
      okStep "generate_response", okStep "validate_output"], "hi", some "hi"⟩
    "hi" (by decide) (by decide) (by decide) rfl rfl rfl (by decide)
    (by decide) rfl (by decide) (by decide) classifyFailOracle
